import Mathlib

/-!
# Verification of the OpenStack plugin server lifecycle logic

Shallow embedding of the server lifecycle operations of
`nova_plugin/server.py` and of the resource identity / validation helpers of
`openstack_plugin_common/__init__.py` (cloudify-openstack-plugin 2.14.8).

Provider calls (nova, neutron, cinder) are passed in explicitly, either as
functions (lookups) or as the outcome the call would have produced at that
point of the control flow; runtime properties and node properties are passed
and returned explicitly.  Python dictionaries whose keys may be absent are
modelled with `Option` fields; Python truthiness of a possibly absent value
`d.get(k)` is modelled as `(field.getD false)` for booleans and as emptiness
tests for strings, matching the source at every point a claim exercises.
-/

/-! ## Constants (nova_plugin/server.py) -/

def SERVER_STATUS_ACTIVE : String := "ACTIVE"

def SERVER_STATUS_BUILD : String := "BUILD"

def SERVER_STATUS_SHUTOFF : String := "SHUTOFF"

def SERVER_STATUS_ERROR : String := "ERROR"

def SERVER_STATUS_REBOOT : String := "REBOOT"

def SERVER_STATUS_HARD_REBOOT : String := "HARD_REBOOT"

def SERVER_STATUS_UNKNOWN : String := "UNKNOWN"

def SERVER_TASK_STATE_POWERING_OFF : String := "powering-off"

def INFINITE_RESOURCE_QUOTA : Int := -1

/-! ## NIC composition (`_merge_nics`, `_normalize_nics`, `get_port_networks`,
`_prepare_server_nics`) -/

/-- A NIC dict as passed to nova: optional `net-id` and `port-id` keys. -/
structure Nic where
  netId : Option String
  portId : Option String
deriving DecidableEq, Repr

/-- A neutron port object as read by `get_port_networks`:
`port['port']['id']` and `port['port']['network_id']`. -/
structure PortObj where
  id : String
  network_id : String
deriving DecidableEq, Repr

/-- `get_port_networks`: one `show_port` lookup per port id, producing a nic
with both `net-id` and `port-id` set. -/
def get_port_networks (show_port : String → PortObj) (port_ids : List String) : List Nic :=
  port_ids.map (fun p => { netId := some (show_port p).network_id, portId := some (show_port p).id })

/-- Bool prefix test on char lists (helper for the Python substring test). -/
def listIsPrefix : List Char → List Char → Bool
  | [], _ => true
  | _ :: _, [] => false
  | a :: as, b :: bs => a == b && listIsPrefix as bs

/-- Bool contiguous-sublist test on char lists. -/
def listContains (needle : List Char) : List Char → Bool
  | [] => listIsPrefix needle []
  | b :: bs => listIsPrefix needle (b :: bs) || listContains needle bs

/-- Python `a in b` on strings: `a` occurs as a contiguous substring of `b`.
The dedup loop of `_prepare_server_nics` tests `network_id in
port_network.get('net-id')`, which is this substring test, not equality. -/
def strIn (a b : String) : Bool := listContains a.toList b.toList

/-- One pass of the dedup loop of `_prepare_server_nics` for a single port
network: Python iterates `network_ids` by a cursor `k` while calling
`list.remove` on it, so a removal shifts the next element into the removed
slot and the cursor skips it.  `list.remove(x)` removes the first occurrence
of `x`.  The fuel is the number of remaining cursor steps; the loop takes at
most `ids.length` steps because the cursor grows while the list only
shrinks. -/
def removeMatchedAux (net_id : String) : Nat → Nat → List String → List String
  | 0, _, ids => ids
  | fuel + 1, k, ids =>
    if h : k < ids.length then
      if strIn (ids.get ⟨k, h⟩) net_id then
        removeMatchedAux net_id fuel (k + 1) (ids.erase (ids.get ⟨k, h⟩))
      else removeMatchedAux net_id fuel (k + 1) ids
    else ids

/-- The dedup loop of `_prepare_server_nics` over one port network. -/
def removeMatched (net_id : String) (ids : List String) : List String :=
  removeMatchedAux net_id ids.length 0 ids

/-- `_merge_nics`: concatenate the nic sources and prepend a management-only
nic when no merged entry already carries the management network id.  (Python
reads `nic['net-id']` here; every nic reaching this check carries a `net-id`
in the flows modelled, and a missing key is modelled as no match.) -/
def _merge_nics (management_network_id : Option String) (nics_sources : List (List Nic)) : List Nic :=
  let merged := nics_sources.flatten
  match management_network_id with
  | none => merged
  | some m =>
    if merged.any (fun nic => nic.netId = some m) then merged
    else { netId := some m, portId := none } :: merged

/-- The per-nic body of `_normalize_nics`: if both `port-id` and `net-id` are
present, delete `net-id`. -/
def _normalize (nic : Nic) : Nic :=
  if nic.portId.isSome && nic.netId.isSome then { nic with netId := none } else nic

/-- `_normalize_nics`. -/
def _normalize_nics (nics : List Nic) : List Nic := nics.map _normalize

/-- `_prepare_server_nics`, as a function of the connected network ids, the
connected port ids, the management network id and the pre-declared
`server['nics']`; returns the final `server['nics']` value.  (The function
also stores the management network id/name in `server['meta']`; that
bookkeeping is not modelled.) -/
def _prepare_server_nics (show_port : String → PortObj)
    (network_ids port_ids : List String)
    (management_network_id : Option String)
    (server_nics : List Nic) : List Nic :=
  let port_networks := get_port_networks show_port port_ids
  let network_ids2 := port_networks.foldl
    (fun ids pn =>
      match pn.netId with
      | some d => removeMatched d ids
      | none => ids)
    network_ids
  let nics := _merge_nics management_network_id
    [server_nics, network_ids2.map (fun n => { netId := some n, portId := none }), port_networks]
  _normalize_nics nics

/-! ## Resource identity (`openstack_plugin_common/__init__.py`) -/

/-- The node properties the identity logic reads.  Python tests both key
presence and truthiness (`KEY in properties and properties[KEY]`), so the
boolean properties are `Option Bool` with `none` for an absent key.
`resource_id` defaults to the empty string, which Python treats as falsy. -/
structure NodeProperties where
  use_external_resource : Option Bool
  create_if_missing : Option Bool
  resource_id : String
deriving DecidableEq, Repr

/-- The per-instance runtime properties the identity logic reads and writes
(`conditionally_created`, `external_id`, `external_type`, `external_name`). -/
structure RuntimeProperties where
  conditionally_created : Option Bool
  external_id : Option String
  external_type : Option String
  external_name : Option String
deriving DecidableEq, Repr

/-- `is_external_resource_by_properties`. -/
def is_external_resource_by_properties (properties : NodeProperties) : Bool :=
  properties.use_external_resource = some true

/-- `is_create_if_missing_by_properties`. -/
def is_create_if_missing_by_properties (properties : NodeProperties) : Bool :=
  properties.create_if_missing = some true

/-- `is_external_resource` (reads only the node properties). -/
def is_external_resource (props : NodeProperties) : Bool :=
  is_external_resource_by_properties props

/-- `is_create_if_missing`. -/
def is_create_if_missing (props : NodeProperties) : Bool :=
  is_create_if_missing_by_properties props

/-- `is_external_resource_not_conditionally_created`: external by node
properties and the `conditionally_created` runtime flag is falsy. -/
def is_external_resource_not_conditionally_created
    (props : NodeProperties) (runtime : RuntimeProperties) : Bool :=
  is_external_resource_by_properties props && !(runtime.conditionally_created.getD false)

/-- `is_external_relationship_not_conditionally_created` over the source and
target node contexts of a relationship. -/
def is_external_relationship_not_conditionally_created
    (source_props target_props : NodeProperties)
    (source_runtime target_runtime : RuntimeProperties) : Bool :=
  is_external_resource_by_properties source_props
    && is_external_resource_by_properties target_props
    && !(source_runtime.conditionally_created.getD false)
    && !(target_runtime.conditionally_created.getD false)

/-- A provider resource object (`id` and `name` are what the identity logic
reads from it). -/
structure Resource where
  id : String
  name : String
deriving DecidableEq, Repr

/-- The sugared client lookups consumed by the identity logic:
`cosmo_get_if_exists(type, name=..)` and `cosmo_get_if_exists(type, id=..)`. -/
structure Facade where
  getByName : String → Option Resource
  getById : String → Option Resource

/-- `get_resource_by_name_or_id`: search by name first, fall back to id. -/
def get_resource_by_name_or_id (facade : Facade) (resource_id : String) : Option Resource :=
  match facade.getByName resource_id with
  | some r => some r
  | none => facade.getById resource_id

/-- Outcome of `_get_resource_by_name_or_id_from_ctx`: the resource, or the
`NonRecoverableError` it raises (for a falsy `resource_id` as well as for a
failed lookup). -/
inductive LookupOutcome where
  | found (r : Resource)
  | notFoundError
deriving DecidableEq, Repr

/-- `_get_resource_by_name_or_id_from_ctx`: the identifier is the stored
`external_id` runtime property, defaulting to the `resource_id` node
property; an empty identifier raises, and a failed name/id lookup raises. -/
def _get_resource_by_name_or_id_from_ctx
    (props : NodeProperties) (runtime : RuntimeProperties) (facade : Facade) : LookupOutcome :=
  let resource_id := runtime.external_id.getD props.resource_id
  if resource_id = "" then .notFoundError
  else
    match get_resource_by_name_or_id facade resource_id with
    | some r => .found r
    | none => .notFoundError

/-- What `use_external_resource` returns (`None` for a managed resource, `None`
after flagging conditional creation, the resource, or a propagated
`NonRecoverableError`). -/
inductive UseExternalOutcome where
  | managed
  | conditionallyCreated
  | external (r : Resource)
  | notFoundFailure
deriving DecidableEq, Repr

/-- Result of `use_external_resource`: the outcome and the updated runtime
properties. -/
structure UseExternalResult where
  outcome : UseExternalOutcome
  runtime : RuntimeProperties
deriving DecidableEq, Repr

/-- `use_external_resource`.  On a failed lookup with `create_if_missing` it
sets the `conditionally_created` runtime flag and returns `None`; otherwise
the error propagates.  On success it records id, type and name in the runtime
properties.  (The floating-ip exception to storing the name lives in a module
outside the sources and no claim involves floating IPs, so the name is always
recorded here.) -/
def use_external_resource (props : NodeProperties) (runtime : RuntimeProperties)
    (facade : Facade) (openstack_type : String) : UseExternalResult :=
  if !(is_external_resource props) then { outcome := .managed, runtime := runtime }
  else
    match _get_resource_by_name_or_id_from_ctx props runtime facade with
    | .notFoundError =>
      if is_create_if_missing props then
        { outcome := .conditionallyCreated,
          runtime := { runtime with conditionally_created := some true } }
      else { outcome := .notFoundFailure, runtime := runtime }
    | .found r =>
      { outcome := .external r,
        runtime := { runtime with
          external_id := some r.id,
          external_type := some openstack_type,
          external_name := some r.name } }

/-- Outcome of `validate_resource`. -/
inductive ValidateOutcome where
  | ok
  | notFoundFailure
  | quotaExceeded
deriving DecidableEq, Repr

/-- `validate_resource`.  `isNovaClient` is the
`isinstance(sugared_client, NovaClientWithSugar)` test, `existingCount` the
length of `cosmo_list(openstack_type)` and `quota` the provider-reported
`get_quota(openstack_type)`. -/
def validate_resource (props : NodeProperties) (runtime : RuntimeProperties)
    (facade : Facade) (isNovaClient : Bool) (existingCount : Nat) (quota : Int) : ValidateOutcome :=
  let quotaCheck : ValidateOutcome :=
    if isNovaClient then .ok
    else if (existingCount : Int) < quota ∨ quota = INFINITE_RESOURCE_QUOTA then .ok
    else .quotaExceeded
  if is_external_resource props then
    match _get_resource_by_name_or_id_from_ctx props runtime facade with
    | .found _ => .ok
    | .notFoundError =>
      if !(is_create_if_missing props) then .notFoundFailure
      else quotaCheck
  else quotaCheck

/-! ## Server delete (`nova_plugin/server.py` `delete`) and the common
delete helper -/

/-- Observable effect of a delete operation: whether a provider delete call
was issued and whether the stored runtime state was cleared. -/
structure DeleteTrace where
  providerDeleteIssued : Bool
  runtimePropertiesCleared : Bool
deriving DecidableEq, Repr

/-- `nova_plugin/server.py` `delete`: the guard is `is_external_resource`,
which reads only the node properties and ignores the `conditionally_created`
runtime flag; runtime properties are cleared on both paths. -/
def server_delete (props : NodeProperties) (_runtime : RuntimeProperties) : DeleteTrace :=
  if !(is_external_resource props) then
    { providerDeleteIssued := true, runtimePropertiesCleared := true }
  else
    { providerDeleteIssued := false, runtimePropertiesCleared := true }

/-- `openstack_plugin_common` `delete_resource_and_runtime_properties`, the
delete helper of every other resource type: its guard is
`is_external_resource_not_conditionally_created`, so a conditionally created
resource is deleted at the provider. -/
def delete_resource_and_runtime_properties
    (props : NodeProperties) (runtime : RuntimeProperties) : DeleteTrace :=
  if !(is_external_resource_not_conditionally_created props runtime) then
    { providerDeleteIssued := true, runtimePropertiesCleared := true }
  else
    { providerDeleteIssued := false, runtimePropertiesCleared := true }

/-! ## Stop and reboot (`_server_stop`, `reboot`) -/

/-- The server fields `_server_stop` and `reboot` read: `status` and the
`OS-EXT-STS:task_state` attribute (absent task state is `none`). -/
structure ServerObj where
  status : String
  taskState : Option String
deriving DecidableEq, Repr

/-- A lifecycle decision: return normally, `ctx.operation.retry(...)`, or
raise `NonRecoverableError`. -/
inductive Decision where
  | success
  | retry (seconds : Nat)
  | failNonRecoverable
deriving DecidableEq, Repr

/-- Trace of `_server_stop`: the decision, whether `servers.stop` was issued
and how many seconds of synchronous settle wait (`time.sleep`) ran. -/
structure StopTrace where
  decision : Decision
  stopIssued : Bool
  settleWaitSeconds : Nat
deriving DecidableEq, Repr

/-- `_server_stop`.  `status_after_stop` is the status re-read from
`servers.get` after the stop command and the 10 second sleep. -/
def _server_stop (server : ServerObj) (status_after_stop : String) : StopTrace :=
  if server.taskState = some SERVER_TASK_STATE_POWERING_OFF then
    { decision := .retry 30, stopIssued := false, settleWaitSeconds := 0 }
  else if server.status ≠ SERVER_STATUS_SHUTOFF then
    if status_after_stop ≠ SERVER_STATUS_SHUTOFF then
      { decision := .retry 30, stopIssued := true, settleWaitSeconds := 10 }
    else
      { decision := .success, stopIssued := true, settleWaitSeconds := 10 }
  else
    { decision := .success, stopIssued := false, settleWaitSeconds := 0 }

/-- Outcome of `reboot`: return normally, `ctx.operation.retry(...)`, raise
`NonRecoverableError`, or crash with `AttributeError`.  The crash arises in
the final else, whose failure message formats `server.state`: nova server
objects carry no `state` attribute (the code reads `server.status` everywhere
else), so evaluating it raises `AttributeError` before the
`NonRecoverableError` is ever constructed. -/
inductive RebootOutcome where
  | success
  | retry (seconds : Nat)
  | failNonRecoverable
  | attributeErrorCrash
deriving DecidableEq, Repr

/-- Trace of `reboot`: the outcome and whether a reboot command was issued
(only on the first invocation, `retry_number = 0`). -/
structure RebootTrace where
  decision : RebootOutcome
  rebootIssued : Bool
deriving DecidableEq, Repr

/-- Python `str.upper()` over the ASCII strings the reboot flow compares. -/
def pyUpper (s : String) : String := String.mk (s.data.map Char.toUpper)

/-- `reboot`.  On the first invocation an invalid `reboot_type` raises before
any command; otherwise the command is issued on the first invocation only and
the outcome follows the status re-read afterwards.  Any status outside the
four listed ones reaches the final else, which crashes with `AttributeError`
while formatting `server.state` into its message. -/
def reboot (retry_number : Nat) (reboot_type : String) (status_after : String) : RebootTrace :=
  if retry_number = 0 ∧ ¬(pyUpper reboot_type = "HARD" ∨ pyUpper reboot_type = "SOFT") then
    { decision := .failNonRecoverable, rebootIssued := false }
  else
    let issued := decide (retry_number = 0)
    if status_after = SERVER_STATUS_REBOOT ∨ status_after = SERVER_STATUS_HARD_REBOOT
        ∨ status_after = SERVER_STATUS_UNKNOWN then
      { decision := .retry 30, rebootIssued := issued }
    else if status_after = SERVER_STATUS_ACTIVE then
      { decision := .success, rebootIssued := issued }
    else if status_after = SERVER_STATUS_ERROR then
      { decision := .failNonRecoverable, rebootIssued := issued }
    else
      { decision := .attributeErrorCrash, rebootIssued := issued }

/-! ## Volume attach / detach (`attach_volume`,
`_prepare_attach_volume_to_be_repeated`, `_detach_volume`) -/

/-- The exception taxonomy the attach flow distinguishes:
`RecoverableError`, `NonRecoverableError`, `NonRecoverableError(e)` built
around another exception, and any other exception. -/
inductive PyErr where
  | recoverableError (msg : String)
  | nonRecoverableError (msg : String)
  | wrappedNonRecoverable (cause : PyErr)
  | otherError (msg : String)
deriving DecidableEq, Repr

/-- `isinstance(e, NonRecoverableError)`. -/
def PyErr.isNonRecoverable : PyErr → Bool
  | .nonRecoverableError _ => true
  | .wrappedNonRecoverable _ => true
  | _ => false

/-- A cinder volume attachment record (`id` and `device` are the fields the
flow reads). -/
structure Attachment where
  id : String
  device : String
deriving DecidableEq, Repr

/-- The message of the `RecoverableError` raised when the wait for IN_USE
reports failure. -/
def waitFailedMessage : String :=
  "Waiting for volume status in-use failed - detaching volume and retrying.."

/-- The provider-call outcomes consumed by one `attach_volume` invocation, in
the order the control flow reaches them.  `volume.wait_until_status` and
`volume.get_attachment` live in the cinder plugin module, outside the staged
sources; they are modelled by the outcome each call yields:
`wait_until_status` returns a `(volume, wait_succeeded)` pair (`Except.ok`
carries `wait_succeeded`; `Except.error` is an exception it raises) and
`get_attachment` returns an attachment or `None`. -/
structure AttachEnv where
  createServerVolume : Except PyErr Unit
  waitUntilInUse : Except PyErr Bool
  attachmentExternal : Option Attachment
  attachmentAfterWait : Option Attachment
  attachmentForDetach : Option Attachment
  deleteServerVolume : Except PyErr Unit
  waitUntilAvailable : Except PyErr Bool

/-- Trace of `attach_volume`: its result, how many compensating
`delete_server_volume` (detach) calls ran, and the device name recorded in
the runtime properties (auto-assigned device case). -/
structure AttachTrace where
  result : Except PyErr Unit
  detachCalls : Nat
  deviceNameRecorded : Option String

/-- `_detach_volume`: look up the attachment; if absent succeed trivially,
else issue the detach and wait for AVAILABLE (the returned `wait_succeeded`
of that wait is discarded by the source).  The second component counts
`delete_server_volume` calls. -/
def _detach_volume (env : AttachEnv) : Except PyErr Unit × Nat :=
  match env.attachmentForDetach with
  | none => (Except.ok (), 0)
  | some _ =>
    match env.deleteServerVolume with
    | Except.error e => (Except.error e, 1)
    | Except.ok _ =>
      match env.waitUntilAvailable with
      | Except.error e => (Except.error e, 1)
      | Except.ok _ => (Except.ok (), 1)

/-- `_prepare_attach_volume_to_be_repeated`: run the compensating detach; if
it raises, wrap its exception in a fresh `NonRecoverableError`. -/
def _prepare_attach_volume_to_be_repeated (env : AttachEnv) : Except PyErr Unit × Nat :=
  match _detach_volume env with
  | (Except.ok _, n) => (Except.ok (), n)
  | (Except.error e, n) => (Except.error (PyErr.wrappedNonRecoverable e), n)

/-- `attach_volume`.  The external-relationship path only validates; the
managed path issues the attach, waits for IN_USE inside a `try` block, reads
the auto-assigned device name if needed, and on any caught exception that is
not a `NonRecoverableError` runs the compensating detach before re-raising
the original exception (a failure of the compensating detach supersedes
it). -/
def attach_volume (source_props target_props : NodeProperties)
    (source_runtime target_runtime : RuntimeProperties)
    (device : String) (env : AttachEnv) : AttachTrace :=
  if is_external_relationship_not_conditionally_created
      source_props target_props source_runtime target_runtime then
    match env.attachmentExternal with
    | some _ => { result := Except.ok (), detachCalls := 0, deviceNameRecorded := none }
    | none =>
      { result := Except.error
          (PyErr.nonRecoverableError "Expected external resources server and volume to be connected"),
        detachCalls := 0, deviceNameRecorded := none }
  else
    match env.createServerVolume with
    | Except.error e => { result := Except.error e, detachCalls := 0, deviceNameRecorded := none }
    | Except.ok _ =>
      let tryOutcome : Except PyErr (Option String) :=
        match env.waitUntilInUse with
        | Except.error e => Except.error e
        | Except.ok wait_succeeded =>
          if !wait_succeeded then
            Except.error (PyErr.recoverableError waitFailedMessage)
          else if device = "auto" then
            match env.attachmentAfterWait with
            | some att => Except.ok (some att.device)
            | none => Except.error (PyErr.otherError "NoneType object is not subscriptable")
          else Except.ok none
      match tryOutcome with
      | Except.ok dev => { result := Except.ok (), detachCalls := 0, deviceNameRecorded := dev }
      | Except.error e =>
        if e.isNonRecoverable then
          { result := Except.error e, detachCalls := 0, deviceNameRecorded := none }
        else
          match _prepare_attach_volume_to_be_repeated env with
          | (Except.ok _, n) =>
            { result := Except.error e, detachCalls := n, deviceNameRecorded := none }
          | (Except.error e2, n) =>
            { result := Except.error e2, detachCalls := n, deviceNameRecorded := none }

/-! ## Boot volume handling (`_get_boot_volume_relationships`,
`_handle_boot_volume`) -/

/-- A relationship target instance as read by the boot-volume logic: its
stored `external_type`, the truthiness of its `bootable` runtime property,
its `external_id` and its stored `availability_zone`. -/
structure RelTargetInstance where
  external_type : Option String
  bootable : Bool
  external_id : String
  availability_zone : String
deriving DecidableEq, Repr

/-- `_get_boot_volume_relationships`: the relationship targets whose stored
type matches and whose `bootable` runtime property is truthy; none is fine,
more than one raises `NonRecoverableError`. -/
def _get_boot_volume_relationships (type_name : String) (rels : List RelTargetInstance) :
    Except PyErr (Option RelTargetInstance) :=
  let targets := rels.filter (fun r => r.external_type = some type_name ∧ r.bootable)
  if targets.isEmpty then Except.ok none
  else if 1 < targets.length then
    Except.error (PyErr.nonRecoverableError "2 boot volumes not supported")
  else Except.ok targets.head?

/-- The server creation payload fields the boot-volume logic touches.
`block_device_mapping` is a Python dict, modelled as an ordered association
list with unique keys. -/
structure ServerSpec where
  block_device_mapping : List (String × String)
  availability_zone : Option String
deriving DecidableEq, Repr

/-- Python dict assignment `bdm[key] = value`: replace in place or append. -/
def setBdm : List (String × String) → String → String → List (String × String)
  | [], key, value => [(key, value)]
  | kv :: rest, key, value =>
    if kv.fst = key then (key, value) :: rest else kv :: setBdm rest key value

/-- `_handle_boot_volume`: with a single bootable volume target, write
`bdm['vda'] = '<id>:::0'` and adopt the volume availability zone when the
server declares none (Python falsy: absent or empty). -/
def _handle_boot_volume (server : ServerSpec) (type_name : String)
    (rels : List RelTargetInstance) : Except PyErr ServerSpec :=
  match _get_boot_volume_relationships type_name rels with
  | Except.error e => Except.error e
  | Except.ok none => Except.ok server
  | Except.ok (some boot_volume) =>
    let server1 := { server with
      block_device_mapping := setBdm server.block_device_mapping "vda"
        (boot_volume.external_id ++ ":::0") }
    if server1.availability_zone.getD "" = "" then
      Except.ok { server1 with availability_zone := some boot_volume.availability_zone }
    else Except.ok server1

/-! ## Helper lemmas -/

theorem listIsPrefix_refl (l : List Char) : listIsPrefix l l = true := by
  induction l with
  | nil => rfl
  | cons a as ih => simp [listIsPrefix, ih]

theorem strIn_refl (a : String) : strIn a a = true := by
  unfold strIn
  cases h : a.toList with
  | nil => rfl
  | cons b bs => simp [listContains, listIsPrefix_refl]

theorem lookup_setBdm (bdm : List (String × String)) (k v : String) :
    (setBdm bdm k v).lookup k = some v := by
  induction bdm with
  | nil => simp [setBdm, List.lookup]
  | cons kv rest ih =>
    by_cases h : kv.fst = k
    · simp [setBdm, h, List.lookup]
    · simp only [setBdm, if_neg h, List.lookup]
      have hk : (k == kv.fst) = false := beq_eq_false_iff_ne.mpr (fun he => h he.symm)
      simp [hk, ih]

/-! ## Claim theorems -/

/-- C1: the spec says a conditionally created server (declared external with
`create_if_missing`, then created because it was absent, with the
`conditionally_created` runtime flag set) is removed by a later delete.  The
server `delete` operation, however, guards on `is_external_resource`, which
reads only the node properties and ignores the runtime flag, so it issues no
provider delete and only clears the stored runtime state.  The common helper
`delete_resource_and_runtime_properties`, used by the other resource types,
honours the flag and would issue the provider delete on the same input. -/
theorem server_delete_ignores_conditional_creation_flag :
    server_delete
        { use_external_resource := some true, create_if_missing := some true,
          resource_id := "server-1" }
        { conditionally_created := some true, external_id := some "sid-1",
          external_type := some "server", external_name := some "server-1" }
      = { providerDeleteIssued := false, runtimePropertiesCleared := true }
  ∧ delete_resource_and_runtime_properties
        { use_external_resource := some true, create_if_missing := some true,
          resource_id := "server-1" }
        { conditionally_created := some true, external_id := some "sid-1",
          external_type := some "server", external_name := some "server-1" }
      = { providerDeleteIssued := true, runtimePropertiesCleared := true } :=
  ⟨rfl, rfl⟩

/-- C4: NIC composition with inline nics `[A]`, network-relationship targets
`[B, C]`, one port relationship whose port `p` resolves to network `D` with
port id `P`, management network `E` and no overlaps: the merged list is
exactly `[E, A, B, C, (net D, port P)]` (management first, then inline, then
relationship networks in declared order, then port-derived nics), the final
normalized list strips `net-id` from the port entry, and the management entry
is not prepended when an entry already targets the management network id. -/
theorem nic_composition_order :
    _merge_nics (some "E")
        [[{ netId := some "A", portId := none }],
         [{ netId := some "B", portId := none }, { netId := some "C", portId := none }],
         [{ netId := some "D", portId := some "P" }]]
      = [{ netId := some "E", portId := none }, { netId := some "A", portId := none },
         { netId := some "B", portId := none }, { netId := some "C", portId := none },
         { netId := some "D", portId := some "P" }]
  ∧ _prepare_server_nics (fun _ => { id := "P", network_id := "D" })
        ["B", "C"] ["p"] (some "E") [{ netId := some "A", portId := none }]
      = [{ netId := some "E", portId := none }, { netId := some "A", portId := none },
         { netId := some "B", portId := none }, { netId := some "C", portId := none },
         { netId := none, portId := some "P" }]
  ∧ _merge_nics (some "E")
        [[{ netId := some "A", portId := none }], [{ netId := some "E", portId := none }], []]
      = [{ netId := some "A", portId := none }, { netId := some "E", portId := none }] :=
  ⟨rfl, rfl, rfl⟩

/-- C9: every entry returned by `_normalize_nics` that carries a port id
carries no network id; the length is preserved; entries with both fields have
exactly the `net-id` stripped; and entries without both fields pass through
unchanged. -/
theorem normalize_nics_strips_net_id (nics : List Nic) :
    (_normalize_nics nics).all (fun nic => !(nic.portId.isSome && nic.netId.isSome)) = true
  ∧ (_normalize_nics nics).length = nics.length
  ∧ _normalize_nics (nics.filter (fun nic => nic.portId.isSome && nic.netId.isSome))
      = (nics.filter (fun nic => nic.portId.isSome && nic.netId.isSome)).map
          (fun nic => { nic with netId := none })
  ∧ _normalize_nics (nics.filter (fun nic => !(nic.portId.isSome && nic.netId.isSome)))
      = nics.filter (fun nic => !(nic.portId.isSome && nic.netId.isSome)) := by
  have hpoint : ∀ nic : Nic, (!((_normalize nic).portId.isSome && (_normalize nic).netId.isSome)) = true := by
    intro nic
    cases hp : nic.portId <;> cases hn : nic.netId <;> simp [_normalize, hp, hn]
  refine ⟨?_, ?_, ?_, ?_⟩
  · simp only [_normalize_nics, List.all_eq_true]
    intro nic hmem
    rcases List.mem_map.1 hmem with ⟨a, _, rfl⟩
    exact hpoint a
  · simp [_normalize_nics]
  · refine List.map_congr_left ?_
    intro a ha
    have hboth : (a.portId.isSome && a.netId.isSome) = true := (List.mem_filter.1 ha).2
    simp [_normalize, hboth]
  · have : ∀ a ∈ nics.filter (fun nic => !(nic.portId.isSome && nic.netId.isSome)),
        _normalize a = a := by
      intro a ha
      have hnot : (!(a.portId.isSome && a.netId.isSome)) = true := (List.mem_filter.1 ha).2
      have : (a.portId.isSome && a.netId.isSome) = false := by
        revert hnot; cases (a.portId.isSome && a.netId.isSome) <;> simp
      simp [_normalize, this]
    calc _normalize_nics (nics.filter (fun nic => !(nic.portId.isSome && nic.netId.isSome)))
        = (nics.filter (fun nic => !(nic.portId.isSome && nic.netId.isSome))).map id := by
          exact List.map_congr_left (fun a ha => this a ha)
      _ = nics.filter (fun nic => !(nic.portId.isSome && nic.netId.isSome)) := List.map_id _

/-- C3: the stop decision table of `_server_stop`.  Task state
`powering-off` retries after 30 seconds with no command; status `SHUTOFF`
otherwise succeeds with no command; any other status issues the stop
command, sleeps the fixed 10 second settle delay, and retries after 30
seconds when the re-read status is still not `SHUTOFF`. -/
theorem server_stop_decision_table (server : ServerObj) (status_after : String) :
    (server.taskState = some SERVER_TASK_STATE_POWERING_OFF →
      _server_stop server status_after =
        { decision := .retry 30, stopIssued := false, settleWaitSeconds := 0 })
  ∧ (server.taskState ≠ some SERVER_TASK_STATE_POWERING_OFF →
      server.status = SERVER_STATUS_SHUTOFF →
      _server_stop server status_after =
        { decision := .success, stopIssued := false, settleWaitSeconds := 0 })
  ∧ (server.taskState ≠ some SERVER_TASK_STATE_POWERING_OFF →
      server.status ≠ SERVER_STATUS_SHUTOFF →
      (_server_stop server status_after).stopIssued = true
      ∧ (_server_stop server status_after).settleWaitSeconds = 10
      ∧ (status_after ≠ SERVER_STATUS_SHUTOFF →
          (_server_stop server status_after).decision = .retry 30)
      ∧ (status_after = SERVER_STATUS_SHUTOFF →
          (_server_stop server status_after).decision = .success)) := by
  refine ⟨fun h => ?_, fun h1 h2 => ?_, fun h1 h2 => ?_⟩
  · simp [_server_stop, h]
  · simp [_server_stop, h1, h2]
  · by_cases hs : status_after = SERVER_STATUS_SHUTOFF <;>
      simp [_server_stop, h1, h2, hs]

/-- C3 witness: `_server_stop` at concrete inputs through
`server_stop_decision_table`. -/
theorem server_stop_decision_table_witness :
    _server_stop { status := "ACTIVE", taskState := some "powering-off" } "ACTIVE"
      = { decision := .retry 30, stopIssued := false, settleWaitSeconds := 0 } :=
  (server_stop_decision_table
    { status := "ACTIVE", taskState := some "powering-off" } "ACTIVE").1 rfl

/-- C8: the listed rows of the reboot decision table hold (`REBOOT`,
`HARD_REBOOT`, `UNKNOWN` retry after 30 seconds; `ACTIVE` succeeds; `ERROR`
raises `NonRecoverableError`), but the "anything else" row does not fail
cleanly: the final else formats `server.state` — an attribute nova server
objects do not carry, the code reading `server.status` everywhere else — so
at e.g. observed status `SHUTOFF` the branch crashes with `AttributeError`
before the `NonRecoverableError` is raised, contradicting the claimed
failure-rather-than-crash. -/
theorem reboot_unexpected_status_crashes :
    (reboot 0 "soft" "REBOOT").decision = .retry 30
  ∧ (reboot 0 "soft" "HARD_REBOOT").decision = .retry 30
  ∧ (reboot 0 "soft" "UNKNOWN").decision = .retry 30
  ∧ (reboot 0 "soft" "ACTIVE").decision = .success
  ∧ (reboot 0 "soft" "ERROR").decision = .failNonRecoverable
  ∧ reboot 0 "soft" "SHUTOFF"
      = { decision := .attributeErrorCrash, rebootIssued := true }
  ∧ RebootOutcome.attributeErrorCrash ≠ RebootOutcome.failNonRecoverable := by
  refine ⟨?_, ?_, ?_, ?_, ?_, ?_, ?_⟩ <;> decide

/-- C6: pre-flight validation of a managed (to-be-created) resource fails
with the quota-exceeded error exactly when the existing count has reached a
quota other than the unlimited marker `-1`; and the whole quota check is
skipped for the nova (compute-server) client. -/
theorem validate_resource_quota_gate (props : NodeProperties) (runtime : RuntimeProperties)
    (facade : Facade) (existingCount : Nat) (quota : Int)
    (hmanaged : is_external_resource props = false) :
    (validate_resource props runtime facade false existingCount quota = .quotaExceeded
      ↔ quota ≤ (existingCount : Int) ∧ quota ≠ INFINITE_RESOURCE_QUOTA)
  ∧ validate_resource props runtime facade true existingCount quota = .ok := by
  constructor
  · by_cases h : (existingCount : Int) < quota ∨ quota = INFINITE_RESOURCE_QUOTA
    · simp only [validate_resource, hmanaged, Bool.false_eq_true, if_false,
        if_pos h, if_true]
      constructor
      · intro hc
        exact absurd hc (by simp)
      · intro hc
        rcases h with h | h
        · omega
        · exact absurd h hc.2
    · simp only [validate_resource, hmanaged, Bool.false_eq_true, if_false,
        if_neg h, if_true]
      constructor
      · intro _
        push_neg at h
        exact ⟨by omega, h.2⟩
      · intro _
        trivial
  · simp [validate_resource, hmanaged]

/-- C6 witness: quota 5 with 5 existing resources is rejected for a managed
resource on a non-nova client and accepted on the nova client, through
`validate_resource_quota_gate`. -/
theorem validate_resource_quota_gate_witness :
    (validate_resource { use_external_resource := none, create_if_missing := none, resource_id := "" }
        { conditionally_created := none, external_id := none,
          external_type := none, external_name := none }
        { getByName := fun _ => none, getById := fun _ => none } false 5 5 = .quotaExceeded
      ↔ (5 : Int) ≤ (5 : Nat) ∧ (5 : Int) ≠ INFINITE_RESOURCE_QUOTA)
  ∧ validate_resource { use_external_resource := none, create_if_missing := none, resource_id := "" }
        { conditionally_created := none, external_id := none,
          external_type := none, external_name := none }
        { getByName := fun _ => none, getById := fun _ => none } true 5 5 = .ok :=
  validate_resource_quota_gate
    { use_external_resource := none, create_if_missing := none, resource_id := "" }
    { conditionally_created := none, external_id := none,
      external_type := none, external_name := none }
    { getByName := fun _ => none, getById := fun _ => none } 5 5 rfl

/-- C7: a resource declared external with `create_if_missing` whose provider
lookup (by name, falling back to id) finds nothing resolves without failing:
`use_external_resource` returns `None` after setting the
`conditionally_created` runtime flag, signalling the caller to proceed with
managed creation. -/
theorem use_external_resource_conditionally_created
    (props : NodeProperties) (runtime : RuntimeProperties) (facade : Facade)
    (openstack_type : String)
    (hext : props.use_external_resource = some true)
    (hcim : props.create_if_missing = some true)
    (hname : facade.getByName (runtime.external_id.getD props.resource_id) = none)
    (hid : facade.getById (runtime.external_id.getD props.resource_id) = none) :
    use_external_resource props runtime facade openstack_type =
      { outcome := .conditionallyCreated,
        runtime := { runtime with conditionally_created := some true } } := by
  have hlookup : _get_resource_by_name_or_id_from_ctx props runtime facade = .notFoundError := by
    unfold _get_resource_by_name_or_id_from_ctx get_resource_by_name_or_id
    by_cases h : (runtime.external_id.getD props.resource_id) = "" <;>
      simp [h, hname, hid]
  simp [use_external_resource, is_external_resource, is_external_resource_by_properties,
    hext, hlookup, is_create_if_missing, is_create_if_missing_by_properties, hcim]

/-- C7 witness: `use_external_resource` at a concrete input through
`use_external_resource_conditionally_created`. -/
theorem use_external_resource_conditionally_created_witness :
    use_external_resource
        { use_external_resource := some true, create_if_missing := some true,
          resource_id := "volume-1" }
        { conditionally_created := none, external_id := none,
          external_type := none, external_name := none }
        { getByName := fun _ => none, getById := fun _ => none } "volume"
      = { outcome := .conditionallyCreated,
          runtime := { conditionally_created := some true, external_id := none,
                       external_type := none, external_name := none } } :=
  use_external_resource_conditionally_created
    { use_external_resource := some true, create_if_missing := some true,
      resource_id := "volume-1" }
    { conditionally_created := none, external_id := none,
      external_type := none, external_name := none }
    { getByName := fun _ => none, getById := fun _ => none } "volume" rfl rfl rfl rfl

/-- C10: with more than one bootable-volume relationship target,
`_handle_boot_volume` raises `NonRecoverableError` (create invokes it before
any provider create call); with exactly one, the volume id lands in the block
device mapping as the `vda` boot device and the volume availability zone is
adopted when the server declares none. -/
theorem boot_volume_handling (server : ServerSpec) (type_name : String)
    (rels : List RelTargetInstance) (t : RelTargetInstance) :
    (1 < (rels.filter (fun r => r.external_type = some type_name ∧ r.bootable)).length →
      _handle_boot_volume server type_name rels =
        Except.error (PyErr.nonRecoverableError "2 boot volumes not supported"))
  ∧ (rels.filter (fun r => r.external_type = some type_name ∧ r.bootable) = [t] →
      ∃ server2, _handle_boot_volume server type_name rels = Except.ok server2
        ∧ server2.block_device_mapping.lookup "vda" = some (t.external_id ++ ":::0")
        ∧ (server.availability_zone.getD "" = "" →
            server2.availability_zone = some t.availability_zone)) := by
  constructor
  · intro h
    have hne : (rels.filter (fun r => r.external_type = some type_name ∧ r.bootable)).isEmpty
        = false := by
      cases hc : rels.filter (fun r => r.external_type = some type_name ∧ r.bootable) with
      | nil => rw [hc] at h; simp at h
      | cons a as => rfl
    unfold _handle_boot_volume _get_boot_volume_relationships
    simp only [hne, Bool.false_eq_true, if_false, if_pos h]
  · intro h
    have hbv : _get_boot_volume_relationships type_name rels = Except.ok (some t) := by
      unfold _get_boot_volume_relationships
      rw [h]
      rfl
    have hrun : _handle_boot_volume server type_name rels =
        Except.ok (if server.availability_zone.getD "" = ""
          then { block_device_mapping :=
                   setBdm server.block_device_mapping "vda" (t.external_id ++ ":::0"),
                 availability_zone := some t.availability_zone }
          else { block_device_mapping :=
                   setBdm server.block_device_mapping "vda" (t.external_id ++ ":::0"),
                 availability_zone := server.availability_zone }) := by
      unfold _handle_boot_volume
      rw [hbv]
      by_cases haz : server.availability_zone.getD "" = "" <;> simp [haz]
    by_cases haz : server.availability_zone.getD "" = ""
    · rw [if_pos haz] at hrun
      exact ⟨_, hrun, by simp [lookup_setBdm], fun _ => rfl⟩
    · rw [if_neg haz] at hrun
      exact ⟨_, hrun, by simp [lookup_setBdm], fun hc => absurd hc haz⟩

/-- C10 witness: `_handle_boot_volume` with a single bootable volume target,
through `boot_volume_handling`. -/
theorem boot_volume_handling_witness :
    ∃ server2,
      _handle_boot_volume { block_device_mapping := [], availability_zone := none } "volume"
          [{ external_type := some "volume", bootable := true,
             external_id := "vol-9", availability_zone := "az-1" }]
        = Except.ok server2
      ∧ server2.block_device_mapping.lookup "vda" = some ("vol-9" ++ ":::0")
      ∧ ((ServerSpec.mk [] none).availability_zone.getD "" = "" →
          server2.availability_zone = some "az-1") :=
  (boot_volume_handling { block_device_mapping := [], availability_zone := none } "volume"
    [{ external_type := some "volume", bootable := true,
       external_id := "vol-9", availability_zone := "az-1" }]
    { external_type := some "volume", bootable := true,
      external_id := "vol-9", availability_zone := "az-1" }).2 (by decide)

/-- C2 counterexample: managed attach where the attach command succeeds, the
wait for IN_USE fails (a recoverable error), and the compensating detach
itself fails.  The operation fails non-recoverably wrapping the detach
failure, not the original wait error: the original error is superseded. -/
theorem attach_volume_detach_failure_wraps_detach_error :
    (attach_volume
        { use_external_resource := none, create_if_missing := none, resource_id := "" }
        { use_external_resource := none, create_if_missing := none, resource_id := "" }
        { conditionally_created := none, external_id := none,
          external_type := none, external_name := none }
        { conditionally_created := none, external_id := none,
          external_type := none, external_name := none }
        "vdb"
        { createServerVolume := Except.ok (), waitUntilInUse := Except.ok false,
          attachmentExternal := none, attachmentAfterWait := none,
          attachmentForDetach := some { id := "att-1", device := "vdb" },
          deleteServerVolume := Except.error (PyErr.otherError "detach failure"),
          waitUntilAvailable := Except.ok true }).result
      = Except.error (PyErr.wrappedNonRecoverable (PyErr.otherError "detach failure"))
  ∧ PyErr.wrappedNonRecoverable (PyErr.otherError "detach failure")
      ≠ PyErr.wrappedNonRecoverable (PyErr.recoverableError waitFailedMessage) :=
  ⟨rfl, by simp [waitFailedMessage]⟩

/-- C2 amended: on a managed relationship, when the attach command succeeds
and the wait for IN_USE reports failure, exactly one compensating detach call
is issued; if the detach sequence raises nothing the original recoverable
error propagates, and if the detach call itself fails the operation fails
non-recoverably wrapping the detach failure (superseding the original
error). -/
theorem attach_volume_rollback_amended
    (source_props target_props : NodeProperties)
    (source_runtime target_runtime : RuntimeProperties)
    (device : String) (env : AttachEnv) (att : Attachment)
    (hmanaged : is_external_relationship_not_conditionally_created
        source_props target_props source_runtime target_runtime = false)
    (hcreate : env.createServerVolume = Except.ok ())
    (hwait : env.waitUntilInUse = Except.ok false)
    (hatt : env.attachmentForDetach = some att) :
    (∀ b, env.deleteServerVolume = Except.ok () → env.waitUntilAvailable = Except.ok b →
      (attach_volume source_props target_props source_runtime target_runtime device env).detachCalls = 1
      ∧ (attach_volume source_props target_props source_runtime target_runtime device env).result
          = Except.error (PyErr.recoverableError waitFailedMessage))
  ∧ (∀ d, env.deleteServerVolume = Except.error d →
      (attach_volume source_props target_props source_runtime target_runtime device env).detachCalls = 1
      ∧ (attach_volume source_props target_props source_runtime target_runtime device env).result
          = Except.error (PyErr.wrappedNonRecoverable d)) := by
  constructor
  · intro b hdel hav
    constructor <;>
      simp [attach_volume, hmanaged, hcreate, hwait, hatt, hdel, hav,
        _prepare_attach_volume_to_be_repeated, _detach_volume, PyErr.isNonRecoverable]
  · intro d hdel
    constructor <;>
      simp [attach_volume, hmanaged, hcreate, hwait, hatt, hdel,
        _prepare_attach_volume_to_be_repeated, _detach_volume, PyErr.isNonRecoverable]

/-- C2 witness: the rollback path at a concrete input through
`attach_volume_rollback_amended`. -/
theorem attach_volume_rollback_amended_witness :
    (attach_volume
        { use_external_resource := none, create_if_missing := none, resource_id := "" }
        { use_external_resource := none, create_if_missing := none, resource_id := "" }
        { conditionally_created := none, external_id := none,
          external_type := none, external_name := none }
        { conditionally_created := none, external_id := none,
          external_type := none, external_name := none }
        "vdb"
        { createServerVolume := Except.ok (), waitUntilInUse := Except.ok false,
          attachmentExternal := none, attachmentAfterWait := none,
          attachmentForDetach := some { id := "att-1", device := "vdb" },
          deleteServerVolume := Except.ok (),
          waitUntilAvailable := Except.ok true }).detachCalls = 1
  ∧ (attach_volume
        { use_external_resource := none, create_if_missing := none, resource_id := "" }
        { use_external_resource := none, create_if_missing := none, resource_id := "" }
        { conditionally_created := none, external_id := none,
          external_type := none, external_name := none }
        { conditionally_created := none, external_id := none,
          external_type := none, external_name := none }
        "vdb"
        { createServerVolume := Except.ok (), waitUntilInUse := Except.ok false,
          attachmentExternal := none, attachmentAfterWait := none,
          attachmentForDetach := some { id := "att-1", device := "vdb" },
          deleteServerVolume := Except.ok (),
          waitUntilAvailable := Except.ok true }).result
      = Except.error (PyErr.recoverableError waitFailedMessage) :=
  (attach_volume_rollback_amended
    { use_external_resource := none, create_if_missing := none, resource_id := "" }
    { use_external_resource := none, create_if_missing := none, resource_id := "" }
    { conditionally_created := none, external_id := none,
      external_type := none, external_name := none }
    { conditionally_created := none, external_id := none,
      external_type := none, external_name := none }
    "vdb"
    { createServerVolume := Except.ok (), waitUntilInUse := Except.ok false,
      attachmentExternal := none, attachmentAfterWait := none,
      attachmentForDetach := some { id := "att-1", device := "vdb" },
      deleteServerVolume := Except.ok (),
      waitUntilAvailable := Except.ok true }
    { id := "att-1", device := "vdb" } rfl rfl rfl rfl).1 true rfl rfl

/-- The dedup loop only removes elements: its result is a subset of its
input. -/
theorem removeMatchedAux_subset (d : String) :
    ∀ (fuel k : Nat) (ids : List String), removeMatchedAux d fuel k ids ⊆ ids := by
  intro fuel
  induction fuel with
  | zero => intro k ids; simp [removeMatchedAux]
  | succ fuel ih =>
    intro k ids
    unfold removeMatchedAux
    by_cases h : k < ids.length
    · rw [dif_pos h]
      by_cases hs : strIn (ids.get ⟨k, h⟩) d = true
      · rw [if_pos hs]
        exact (ih (k + 1) (ids.erase (ids.get ⟨k, h⟩))).trans (List.erase_subset _ _)
      · rw [if_neg hs]
        exact ih (k + 1) ids
    · rw [dif_neg h]
      exact List.Subset.refl _

/-- When every matching element equals `d` itself (no strict-substring match)
and the list has no duplicates, the dedup loop behaves like erasing `d` from
the unseen suffix. -/
theorem removeMatchedAux_spec (d : String) :
    ∀ (fuel k : Nat) (ids : List String),
      ids.length ≤ k + fuel →
      (∀ x ∈ ids, strIn x d = true → x = d) →
      ids.Nodup →
      removeMatchedAux d fuel k ids = if d ∈ ids.drop k then ids.erase d else ids := by
  intro fuel
  induction fuel with
  | zero =>
    intro k ids hlen _ _
    have hdrop : ids.drop k = [] := List.drop_eq_nil_of_le (by omega)
    simp [removeMatchedAux, hdrop]
  | succ fuel ih =>
    intro k ids hlen hmatch hnodup
    unfold removeMatchedAux
    by_cases h : k < ids.length
    · rw [dif_pos h]
      have hxmem : ids.get ⟨k, h⟩ ∈ ids := List.get_mem ids k h
      have hdropk : ids.drop k = ids.get ⟨k, h⟩ :: ids.drop (k + 1) := List.drop_eq_get_cons h
      by_cases hs : strIn (ids.get ⟨k, h⟩) d = true
      · rw [if_pos hs]
        have hxd : ids.get ⟨k, h⟩ = d := hmatch _ hxmem hs
        rw [hxd]
        have hdmem : d ∈ ids := hxd ▸ hxmem
        have hlen2 : (ids.erase d).length ≤ (k + 1) + fuel := by
          rw [List.length_erase_of_mem hdmem]
          omega
        rw [ih (k + 1) (ids.erase d) hlen2
          (fun y hy hsy => hmatch y (List.mem_of_mem_erase hy) hsy)
          (List.Nodup.erase d hnodup)]
        have hnd : d ∉ ids.erase d := fun hf =>
          ((List.Nodup.mem_erase_iff hnodup).1 hf).1 rfl
        have hnd2 : d ∉ (ids.erase d).drop (k + 1) := fun hf => hnd (List.mem_of_mem_drop hf)
        rw [if_neg hnd2]
        have hdmemdrop : d ∈ ids.drop k := by
          rw [hdropk, hxd]
          exact List.mem_cons_self _ _
        rw [if_pos hdmemdrop]
      · rw [if_neg hs]
        have hxd : ids.get ⟨k, h⟩ ≠ d := fun he => hs (he ▸ strIn_refl d)
        rw [ih (k + 1) ids (by omega) hmatch hnodup]
        have hiff : d ∈ ids.drop k ↔ d ∈ ids.drop (k + 1) := by
          rw [hdropk]
          constructor
          · intro hmem
            rcases List.mem_cons.1 hmem with he | hm
            · exact absurd he.symm hxd
            · exact hm
          · intro hm
            exact List.mem_cons_of_mem _ hm
        by_cases hd : d ∈ ids.drop (k + 1)
        · rw [if_pos hd, if_pos (hiff.mpr hd)]
        · rw [if_neg hd, if_neg (fun hc => hd (hiff.mp hc))]
    · rw [dif_neg h]
      have hdrop : ids.drop k = [] := List.drop_eq_nil_of_le (by omega)
      simp [hdrop]

/-- `removeMatched` under no-substring-overlap and no-duplicates hypotheses:
it erases `d` when present. -/
theorem removeMatched_spec (d : String) (ids : List String)
    (hmatch : ∀ x ∈ ids, strIn x d = true → x = d) (hnodup : ids.Nodup) :
    removeMatched d ids = if d ∈ ids then ids.erase d else ids := by
  have h := removeMatchedAux_spec d ids.length 0 ids (by omega) hmatch hnodup
  simpa [removeMatched] using h

/-- `removeMatched` only removes elements. -/
theorem removeMatched_subset (d : String) (ids : List String) :
    removeMatched d ids ⊆ ids := by
  unfold removeMatched
  exact removeMatchedAux_subset d ids.length 0 ids

/-- The dedup fold over all port networks only removes elements. -/
theorem foldl_removeMatched_subset (f : String → String) :
    ∀ (ports : List String) (ids : List String),
      ports.foldl (fun ids2 p => removeMatched (f p) ids2) ids ⊆ ids := by
  intro ports
  induction ports with
  | nil => intro ids; simp
  | cons q qs ih =>
    intro ids
    simp only [List.foldl_cons]
    exact (ih (removeMatched (f q) ids)).trans (removeMatched_subset _ _)

/-- Under no-duplicates and no-strict-substring-overlap hypotheses, the dedup
fold drops every network id equal to some port-derived network id. -/
theorem foldl_removeMatched_not_mem (f : String → String) :
    ∀ (ports : List String) (ids : List String) (x : String),
      ids.Nodup →
      (∀ y ∈ ids, ∀ p ∈ ports, strIn y (f p) = true → y = f p) →
      (∃ p ∈ ports, x = f p) →
      x ∉ ports.foldl (fun ids2 p => removeMatched (f p) ids2) ids := by
  intro ports
  induction ports with
  | nil =>
    intro ids x _ _ hex
    rcases hex with ⟨p, hp, _⟩
    exact absurd hp (List.not_mem_nil p)
  | cons q qs ih =>
    intro ids x hnodup hmatch hex
    simp only [List.foldl_cons]
    have hmq : ∀ y ∈ ids, strIn y (f q) = true → y = f q := fun y hy =>
      hmatch y hy q (List.mem_cons_self q qs)
    have hspec := removeMatched_spec (f q) ids hmq hnodup
    have hnodup1 : (removeMatched (f q) ids).Nodup := by
      rw [hspec]
      by_cases hm : f q ∈ ids
      · rw [if_pos hm]
        exact List.Nodup.erase _ hnodup
      · rw [if_neg hm]
        exact hnodup
    have hsub1 : removeMatched (f q) ids ⊆ ids := removeMatched_subset _ _
    have hmatch1 : ∀ y ∈ removeMatched (f q) ids, ∀ p ∈ qs, strIn y (f p) = true → y = f p :=
      fun y hy p hp => hmatch y (hsub1 hy) p (List.mem_cons_of_mem q hp)
    rcases hex with ⟨p, hp, hxp⟩
    rcases List.mem_cons.1 hp with hpq | hpqs
    · have hx1 : x ∉ removeMatched (f q) ids := by
        rw [hspec, hxp, hpq]
        by_cases hm : f q ∈ ids
        · rw [if_pos hm]
          exact fun hf => ((List.Nodup.mem_erase_iff hnodup).1 hf).1 rfl
        · rw [if_neg hm]
          exact hm
      exact fun hc => hx1 (foldl_removeMatched_subset f qs (removeMatched (f q) ids) hc)
    · exact ih (removeMatched (f q) ids) x hnodup1 hmatch1 ⟨p, hpqs, hxp⟩

/-- The dedup fold of `_prepare_server_nics` iterates the port networks built
by `get_port_networks`, each carrying `some` network id. -/
theorem prepare_fold_eq (show_port : String → PortObj) (port_ids network_ids : List String) :
    (get_port_networks show_port port_ids).foldl
        (fun ids pn =>
          match pn.netId with
          | some d => removeMatched d ids
          | none => ids)
        network_ids
      = port_ids.foldl (fun ids p => removeMatched ((show_port p).network_id) ids) network_ids := by
  unfold get_port_networks
  rw [List.foldl_map]

/-- C5 counterexample: network-relationship targets `["net", "network"]` and
one port whose owning network is `"network"`.  The dedup loop removes
`"net"` (a substring match) and, because Python removes from the list while
iterating it, skips `"network"`; the composed list keeps the
network-relationship entry for `"network"` although it equals the
port-derived network id, alongside the port-bearing entry. -/
theorem nic_dedup_counterexample :
    _prepare_server_nics (fun _ => { id := "port-1", network_id := "network" })
        ["net", "network"] ["port-1"] none []
      = [{ netId := some "network", portId := none }, { netId := none, portId := some "port-1" }]
  ∧ ((fun _ => { id := "port-1", network_id := "network" } : String → PortObj)
      "port-1").network_id = "network" :=
  ⟨rfl, rfl⟩

/-- C5 amended: when the network-relationship target ids are pairwise
distinct and none of them matches a port-derived network id as a strict
substring (every substring match is an exact match), every
network-relationship id equal to some port-derived network id is dropped from
the composed list, leaving only the port-bearing entry. -/
theorem nic_dedup_amended (show_port : String → PortObj)
    (network_ids port_ids : List String) (x : String)
    (hnodup : network_ids.Nodup)
    (hnosub : ∀ y ∈ network_ids, ∀ p ∈ port_ids,
        strIn y (show_port p).network_id = true → y = (show_port p).network_id)
    (hover : ∃ p ∈ port_ids, x = (show_port p).network_id) :
    { netId := some x, portId := none : Nic } ∉
      _prepare_server_nics show_port network_ids port_ids none [] := by
  have hfold := foldl_removeMatched_not_mem (fun p => (show_port p).network_id)
    port_ids network_ids x hnodup hnosub hover
  intro hmem
  simp only [_prepare_server_nics, prepare_fold_eq, _merge_nics] at hmem
  simp [_normalize_nics, _normalize, get_port_networks, List.mem_append, List.mem_map,
    List.map_map, Nic.mk.injEq] at hmem
  exact hfold hmem

/-- C5 witness: the amended de-duplication at a concrete input through
`nic_dedup_amended`. -/
theorem nic_dedup_amended_witness :
    { netId := some "D", portId := none : Nic } ∉
      _prepare_server_nics (fun _ => { id := "P", network_id := "D" })
        ["B", "D"] ["p"] none [] :=
  nic_dedup_amended (fun _ => { id := "P", network_id := "D" }) ["B", "D"] ["p"] "D"
    (by decide)
    (by
      intro y hy p hp hs
      fin_cases hy <;> fin_cases hp <;> revert hs <;> decide)
    ⟨"p", by decide, rfl⟩
